import Mathlib

/-!
Verification of the fishpond-validator data-collection script
(src/scripts/data_collection.py) against its specification.

The embedding follows the source file:
  - latitudes and longitudes are modelled as rationals (the source uses
    Python floats only for comparisons and copies, never for rounding);
  - datetimes are modelled as integer seconds on a single timeline whose
    day numbers agree with the proleptic Gregorian day count dateToDays
    below, so that strftime of a datetime to a date string corresponds to
    flooring its seconds to a day number;
  - pandas DataFrame rows are the structure Row; filtering, the sentinel
    preference and the sort-then-take-first of select_best_item are
    modelled on lists of rows; raising is modelled with Except.
-/

deriving instance DecidableEq for Except

namespace Fishpond

/-! ## Strings: lower-casing and substring containment

Models the source expressions item_details.platform.str.lower()
.str.contains("sentinel") (line 120) and "sentinel" in item_platform.lower()
(line 181): a case-insensitive substring test. -/

/-- Is the first character list an initial segment of the second. -/
def isPref : List Char → List Char → Bool
  | [], _ => true
  | _ :: _, [] => false
  | a :: as, b :: bs => a == b && isPref as bs

/-- Does the second character list contain the first as a contiguous run. -/
def hasSub (pat : List Char) : List Char → Bool
  | [] => pat.isEmpty
  | c :: t => isPref pat (c :: t) || hasSub pat t

/-- The characters of a string, lower-cased (str.lower / .str.lower()). -/
def lowerStr (s : String) : List Char := s.data.map Char.toLower

/-- The sentinel test of the source: the lower-cased platform name contains
the substring "sentinel" (lines 119-122 and line 181). -/
def isSent (platform : String) : Bool :=
  hasSub "sentinel".data (lowerStr platform)

/-! ## Scene candidates and DataFrame rows -/

/-- One STAC item as select_best_item consumes it: its acquisition datetime
(seconds on the timeline described above), item.properties["platform"], the
four bbox coordinates (item.bbox = [min_long, min_lat, max_long, max_lat])
and an opaque handle standing for item_obj. -/
structure SourceItem where
  epochSecs : Int
  platform : String
  minLong : ℚ
  minLat : ℚ
  maxLong : ℚ
  maxLat : ℚ
  obj : Nat
deriving DecidableEq

/-- One row of the item_details DataFrame (lines 88-101): the datetime is
kept only as the day number, because the source stores
item.datetime.strftime("%Y-%m-%d"), the calendar date with the time of day
dropped. -/
structure Row where
  dateDays : Int
  platform : String
  minLong : ℚ
  maxLong : ℚ
  minLat : ℚ
  maxLat : ℚ
  obj : Nat
deriving DecidableEq

/-- Building one row (lines 89-97): the strftime("%Y-%m-%d") truncation is
the floor of the datetime to its day number. -/
def mkRow (i : SourceItem) : Row :=
  { dateDays := i.epochSecs.fdiv 86400
    platform := i.platform
    minLong := i.minLong
    maxLong := i.maxLong
    minLat := i.minLat
    maxLat := i.maxLat
    obj := i.obj }

/-- The containment test of lines 104-110, in the order the source writes it:
(min_lat < latitude) and (max_lat > latitude) and (min_long < longitude)
and (max_long > longitude) -- all four strict. -/
def containsPt (lat long : ℚ) (r : Row) : Bool :=
  decide (r.minLat < lat) && decide (r.maxLat > lat) &&
    decide (r.minLong < long) && decide (r.maxLong > long)

/-- The rows that survive the containment filter (line 111). -/
def survivors (items : List SourceItem) (lat long : ℚ) : List Row :=
  (items.map mkRow).filter (containsPt lat long)

/-- Lines 122-124: if any remaining row is a sentinel row, keep only the
sentinel rows, else keep all rows. -/
def sentinelFilter (rows : List Row) : List Row :=
  if rows.any (fun r => isSent r.platform) then
    rows.filter (fun r => isSent r.platform)
  else rows

/-- The rows the final sort runs over: containment filter then sentinel
preference. -/
def pool (items : List SourceItem) (lat long : ℚ) : List Row :=
  sentinelFilter (survivors items lat long)

/-- The first element minimising f, scanning left to right and keeping the
earlier element on ties: the head of an ascending sort of the list.
Models sort_values(by="time_diff", ascending=True).iloc[0] (line 127).
The source leaves sort_values at its default kind (quicksort), which pandas
documents as not stable; this definition fixes the tie order to first
occurrence, the behaviour of the small-array insertion-sort regime. -/
def pickMinBy {α : Type} (f : α → Int) : α → List α → α
  | a, [] => a
  | a, b :: bs => if f b < f a then pickMinBy f b bs else pickMinBy f a bs

/-- Taking the best row out of the pool: none when the pool is empty
(the source returns (np.nan, np.nan, np.nan) at line 112), else the row
with the smallest SIGNED time difference target - row date (line 115
computes pd.to_datetime(date) - pd.to_datetime(item_details["datetime"]),
with no absolute value taken), realised as pickMinBy. -/
def selectFromPool (target : Int) : List Row → Option (Nat × String × Int)
  | [] => none
  | q :: qs =>
    let best := pickMinBy (fun r => target - r.dateDays) q qs
    some (best.obj, best.platform, best.dateDays)

/-- The message of the exception pandas raises at line 105 when items is
empty: the DataFrame built from an empty list has no columns, so the
attribute access item_details.min_lat fails. -/
def attrMsg : String :=
  "AttributeError: DataFrame object has no attribute min_lat"

/-- select_best_item (lines 80-129). On an empty candidate list the pandas
column access raises (modelled as Except.error); otherwise the containment
filter, the no-match early return, the sentinel preference and the
sort-then-first are run in the order of the source. The result triple is
(item_obj, platform, datetime), the datetime as its day number. -/
def select_best_item (items : List SourceItem) (target : Int) (lat long : ℚ) :
    Except String (Option (Nat × String × Int)) :=
  match items with
  | [] => .error attrMsg
  | _ :: _ => .ok (selectFromPool target (pool items lat long))

/-! ## Calendar dates and get_date_range

get_date_range (lines 33-41) parses the sample date, subtracts
timedelta(days=time_buffer_days) and renders both ends with
strftime("%Y-%m-%dT") -- note the trailing literal T in the format string.
Subtracting a whole-day timedelta from a timezone-naive pandas timestamp
at midnight moves it exactly that many calendar days back, so the
subtraction is modelled as an iterated previous-day step on calendar
dates. -/

/-- A proleptic Gregorian calendar date. -/
structure Date where
  year : Int
  month : Nat
  day : Nat
deriving DecidableEq

/-- The Gregorian leap-year rule, written with emod so that it is defined
for every integer year. -/
def isLeap (y : Int) : Bool :=
  y % 4 == 0 && (y % 100 != 0 || y % 400 == 0)

/-- Days in a month of a given year; 0 for a month outside 1..12. -/
def daysInMonth (y : Int) (m : Nat) : Nat :=
  match m with
  | 1 => 31
  | 2 => if isLeap y then 29 else 28
  | 3 => 31
  | 4 => 30
  | 5 => 31
  | 6 => 30
  | 7 => 31
  | 8 => 31
  | 9 => 30
  | 10 => 31
  | 11 => 30
  | 12 => 31
  | _ => 0

/-- A well-formed calendar date. -/
def validDate (d : Date) : Prop :=
  1 ≤ d.month ∧ d.month ≤ 12 ∧ 1 ≤ d.day ∧ d.day ≤ daysInMonth d.year d.month

instance (d : Date) : Decidable (validDate d) := by
  unfold validDate; infer_instance

/-- The calendar date one day earlier, rolling over month and year
boundaries. -/
def prevDay (d : Date) : Date :=
  if 1 < d.day then ⟨d.year, d.month, d.day - 1⟩
  else if 1 < d.month then ⟨d.year, d.month - 1, daysInMonth d.year (d.month - 1)⟩
  else ⟨d.year - 1, 12, 31⟩

/-- The calendar date w days earlier: the model of
pd.to_datetime(date) - timedelta(days=w) at line 38. -/
def subDays (d : Date) : Nat → Date
  | 0 => d
  | n + 1 => prevDay (subDays d n)

/-- Days in the months before month m of year y (the leap day included from
March on). -/
def daysBeforeMonth (y : Int) (m : Nat) : Int :=
  (match m with
   | 1 => 0
   | 2 => 31
   | 3 => 59
   | 4 => 90
   | 5 => 120
   | 6 => 151
   | 7 => 181
   | 8 => 212
   | 9 => 243
   | 10 => 273
   | 11 => 304
   | 12 => 334
   | _ => 0)
  + (if 3 ≤ m ∧ isLeap y = true then 1 else 0)

/-- The absolute day number of a date (day 1 = January 1 of year 1,
proleptic Gregorian): the yardstick for the phrase "D minus W days" of the
specification. -/
def dateToDays (d : Date) : Int :=
  365 * (d.year - 1)
    + (d.year - 1) / 4 - (d.year - 1) / 100 + (d.year - 1) / 400
    + daysBeforeMonth d.year d.month + d.day

/-- The decimal digit character for n < 10. -/
def digitChar (n : Nat) : Char := Char.ofNat (48 + n)

/-- A number rendered as exactly two digits, zero padded (strftime %m, %d). -/
def pad2 (n : Nat) : String :=
  ⟨[digitChar (n / 10 % 10), digitChar (n % 10)]⟩

/-- A number rendered as exactly four digits, zero padded (strftime %Y for
years up to 9999). -/
def pad4 (n : Nat) : String :=
  ⟨[digitChar (n / 1000 % 10), digitChar (n / 100 % 10),
    digitChar (n / 10 % 10), digitChar (n % 10)]⟩

/-- A date rendered as an ISO-8601 date string YYYY-MM-DD. -/
def isoDate (d : Date) : String :=
  pad4 d.year.toNat ++ "-" ++ pad2 d.month ++ "-" ++ pad2 d.day

/-- strftime with the format string of line 37, datetime_format =
"%Y-%m-%dT": the ISO date followed by a literal T. -/
def strfDateT (d : Date) : String := isoDate d ++ "T"

/-- get_date_range (lines 33-41): both ends rendered with strfDateT and
joined by a slash. -/
def get_date_range (date : Date) (timeBufferDays : Nat) : String :=
  strfDateT (subDays date timeBufferDays) ++ "/" ++ strfDateT date

/-- Modelled from the words of the specification (section 4.2): the
interval rendered as two ISO-8601 date strings joined by a slash, with no
time-of-day component. Stated only to be compared with get_date_range. -/
def specDateRange (date : Date) (timeBufferDays : Nat) : String :=
  isoDate (subDays date timeBufferDays) ++ "/" ++ isoDate date

/-! ## Landsat crop normalization

crop_landsat_image (lines 61-78) fetches the red, green and blue bands
(external raster input and output, not modelled) and then runs
cv2.normalize(image_array, None, 0, 255, cv2.NORM_MINMAX) at line 76.
For NORM_MINMAX with alpha = 0 and beta = 255 OpenCV maps every value v of
the array to (v - min) * (255 - 0) / (max - min) + 0, min and max taken
over the whole array. The pixel array is modelled as a list of rationals
(exact arithmetic in place of the float arithmetic of the library call). -/

/-- The minimum of a list of rationals (0 for the empty list, which the
normalization never sees non-vacuously). -/
def listMin : List ℚ → ℚ
  | [] => 0
  | x :: xs => xs.foldl min x

/-- The maximum of a list of rationals. -/
def listMax : List ℚ → ℚ
  | [] => 0
  | x :: xs => xs.foldl max x

/-- cv2.normalize(..., 0, 255, cv2.NORM_MINMAX) on the flattened pixel
array (line 76). -/
def cv2_normalize_minmax (xs : List ℚ) : List ℚ :=
  xs.map (fun v => (v - listMin xs) * 255 / (listMax xs - listMin xs))

/-! ## The batch driver (main, lines 131-189)

The loop over d_metadata.iterrows() is modelled location by location.  The
external collaborators are a DriverEnv: the catalog search result for each
location (none models a raised network error, as the claims on error
propagation quantify over such runs) and whether each crop call succeeds.
The Python variables best_item, item_platform, item_date live in the scope
of main and persist across loop iterations; they are the Binding carried
through the fold.  After the zero-result branch (lines 174-175 execute
pass) the source falls through to line 181 and reads item_platform, so
the binding of the previous iteration, or nothing at all on the first
iteration (a NameError), or a NaN triple when the previous selection had
no match (item_platform.lower() on a float raises AttributeError). -/

/-- One entry of farm_location together with the uid assigned at
line 157. -/
structure Location where
  lat : ℚ
  long : ℚ
  island : String
  uid : Nat
deriving DecidableEq

/-- The state of the variables best_item, item_platform, item_date across
iterations of the loop in main. -/
inductive Binding where
  | unbound
  | nanTriple
  | bound (obj : Nat) (platform : String) (dateDays : Int)
deriving DecidableEq

/-- One image written by cv2.imwrite at line 188, keyed by the uid of the
location whose path it is written to, together with the handle of the item
whose imagery was cropped. -/
structure OutFile where
  uid : Nat
  itemObj : Nat
deriving DecidableEq

/-- The ways one iteration of the loop can raise. -/
inductive RunErr where
  | searchErr
  | nameErr
  | attrErr
  | cropErr
deriving DecidableEq

/-- The external collaborators of one run: the catalog answer per location
uid (none = the search call raised) and whether each crop succeeds, per
item handle and per cropper variant. -/
structure DriverEnv where
  searchRes : Nat → Option (List SourceItem)
  sentinelCropOk : Nat → Bool
  landsatCropOk : Nat → Bool

/-- The hard-coded sample date of line 156, d_metadata["date"] =
"2022-08-31". -/
def targetDate : Date := ⟨2022, 8, 31⟩

/-- The day number select_best_item compares against. -/
def targetDay : Int := dateToDays targetDate

/-- One iteration of the loop of main (lines 159-189) under binding b:
search the catalog (lines 168-173); on zero items execute pass, keeping
the previous binding (lines 174-175); else select (line 177); then
unconditionally dispatch on item_platform (lines 181-184) and crop and
write (lines 187-188). -/
def processLoc (env : DriverEnv) (b : Binding) (loc : Location) :
    Except RunErr (Binding × OutFile) :=
  match env.searchRes loc.uid with
  | none => .error .searchErr
  | some items =>
    let step : Except RunErr Binding :=
      if items.isEmpty then .ok b
      else
        match select_best_item items targetDay loc.lat loc.long with
        | .error _ => .error .attrErr
        | .ok none => .ok .nanTriple
        | .ok (some (o, p, dd)) => .ok (.bound o p dd)
    match step with
    | .error e => .error e
    | .ok b2 =>
      match b2 with
      | .unbound => .error .nameErr
      | .nanTriple => .error .attrErr
      | .bound o p dd =>
        let cropped :=
          if isSent p then env.sentinelCropOk o else env.landsatCropOk o
        if cropped then .ok (.bound o p dd, ⟨loc.uid, o⟩)
        else .error .cropErr

/-- The whole loop: outputs written so far and, when an iteration raises,
the error that escapes main (the source has no try/except anywhere, so
the first error ends the run and no later location is processed). -/
def driverLoop (env : DriverEnv) : Binding → List Location →
    List OutFile × Option RunErr
  | _, [] => ([], none)
  | b, loc :: rest =>
    match processLoc env b loc with
    | .error e => ([], some e)
    | .ok (b2, out) =>
      let tail := driverLoop env b2 rest
      (out :: tail.1, tail.2)

/-- A full run of main over a location list, starting with nothing bound. -/
def runMain (env : DriverEnv) (locs : List Location) :
    List OutFile × Option RunErr :=
  driverLoop env .unbound locs

/-- The first entry of farm_location (lines 139-145), (-7.675039,
107.769191, jawa), with the uid main assigns; the decimals are written as
normalized rationals so that every proof below evaluates them directly. -/
def floc0 : Location :=
  ⟨⟨-7675039, 1000000, by norm_num, by norm_num⟩,
   ⟨107769191, 1000000, by norm_num, by norm_num⟩, "jawa", 0⟩

/-- The second entry of farm_location, (-7.786883, 108.155444, jawa). -/
def floc1 : Location :=
  ⟨⟨-7786883, 1000000, by norm_num, by norm_num⟩,
   ⟨27038861, 250000, by norm_num, by norm_num⟩, "jawa", 1⟩

/-! ## Concrete fixtures for the claim instances below -/

/-- A Landsat candidate acquired one day before the target day 100,
containing the origin. -/
def itmA : SourceItem := ⟨99 * 86400, "landsat-8", -10, -10, 10, 10, 1⟩

/-- A Landsat candidate acquired five days after the target day 100,
containing the origin. -/
def itmB : SourceItem := ⟨105 * 86400, "landsat-8", -10, -10, 10, 10, 2⟩

/-- A Sentinel candidate five days before the target day 100. -/
def itmS : SourceItem := ⟨95 * 86400, "Sentinel-2A", -10, -10, 10, 10, 3⟩

/-- A Landsat candidate on the target day 100. -/
def itmL : SourceItem := ⟨100 * 86400, "landsat-8", -10, -10, 10, 10, 4⟩

/-- A candidate whose bounding box lies away from the origin. -/
def itmOut : SourceItem := ⟨0, "landsat-8", 10, 10, 20, 20, 5⟩

/-- A candidate whose bounding box has min_lat exactly 0: the origin lies
on its edge. -/
def itmEdge : SourceItem := ⟨0, "landsat-8", -1, 0, 1, 1, 7⟩

/-- Two candidates acquired on the same calendar day at different times of
day (one and two hours past midnight of day 738390). -/
def itmT1 : SourceItem := ⟨738390 * 86400 + 3600, "Sentinel-2A", -10, -10, 10, 10, 8⟩

/-- The later same-day twin of itmT1. -/
def itmT2 : SourceItem := ⟨738390 * 86400 + 7200, "Sentinel-2A", -10, -10, 10, 10, 9⟩

/-- A Sentinel item containing both jawa farm locations, acquired eight
days before the hard-coded sample date. -/
def itm10 : SourceItem := ⟨738390 * 86400, "Sentinel-2A", 100, -10, 110, 0, 10⟩

/-- Like itm10: the item found for the first location in the runs that
exercise error propagation. -/
def itm20 : SourceItem := ⟨738390 * 86400, "Sentinel-2B", 100, -10, 110, 0, 20⟩

/-- Like itm10: the item found for the second location in the runs that
exercise error propagation. -/
def itm21 : SourceItem := ⟨738391 * 86400, "Sentinel-2A", 100, -10, 110, 0, 21⟩

/-- A run in which the catalog finds itm10 for the first location and
nothing at all for the second, and every crop succeeds. -/
def envC2 : DriverEnv where
  searchRes := fun uid =>
    if uid = 0 then some [itm10] else if uid = 1 then some [] else none
  sentinelCropOk := fun _ => true
  landsatCropOk := fun _ => true

/-- A run in which the catalog finds nothing for the very first
location. -/
def envC2b : DriverEnv where
  searchRes := fun uid => if uid = 0 then some [] else none
  sentinelCropOk := fun _ => true
  landsatCropOk := fun _ => true

/-- A run in which both locations get one item each but cropping the first
location item (handle 20) fails, while cropping handle 21 succeeds. -/
def envC9 : DriverEnv where
  searchRes := fun uid =>
    if uid = 0 then some [itm20] else if uid = 1 then some [itm21] else none
  sentinelCropOk := fun o => decide (o = 21)
  landsatCropOk := fun _ => true

/-! ## Helper lemmas -/

theorem pickMinBy_mem {α : Type} (f : α → Int) (a : α) (l : List α) :
    pickMinBy f a l = a ∨ pickMinBy f a l ∈ l := by
  induction l generalizing a with
  | nil => left; rfl
  | cons b bs ih =>
    simp only [pickMinBy]
    by_cases h : f b < f a
    · rw [if_pos h]
      rcases ih b with h1 | h1
      · right; rw [h1]; exact List.mem_cons_self b bs
      · right; exact List.mem_cons_of_mem b h1
    · rw [if_neg h]
      rcases ih a with h1 | h1
      · left; exact h1
      · right; exact List.mem_cons_of_mem b h1

theorem pickMinBy_le {α : Type} (f : α → Int) (a : α) (l : List α) :
    ∀ c ∈ a :: l, f (pickMinBy f a l) ≤ f c := by
  induction l generalizing a with
  | nil =>
    intro c hc
    simp only [pickMinBy]
    rcases List.mem_cons.mp hc with h1 | h1
    · rw [h1]
    · exact absurd h1 (List.not_mem_nil c)
  | cons b bs ih =>
    intro c hc
    simp only [pickMinBy]
    by_cases h : f b < f a
    · rw [if_pos h]
      rcases List.mem_cons.mp hc with h1 | h1
      · rw [h1]
        exact le_of_lt (lt_of_le_of_lt (ih b b (List.mem_cons_self b bs)) h)
      · exact ih b c h1
    · rw [if_neg h]
      rcases List.mem_cons.mp hc with h1 | h1
      · rw [h1]; exact ih a a (List.mem_cons_self a bs)
      · rcases List.mem_cons.mp h1 with h2 | h2
        · rw [h2]
          exact le_trans (ih a a (List.mem_cons_self a bs)) (le_of_not_lt h)
        · exact ih a c (List.mem_cons_of_mem a h2)

theorem foldl_min_le (l : List ℚ) (a : ℚ) :
    l.foldl min a ≤ a ∧ ∀ y ∈ l, l.foldl min a ≤ y := by
  induction l generalizing a with
  | nil => exact ⟨le_refl a, by intro y hy; cases hy⟩
  | cons b bs ih =>
    obtain ⟨h1, h2⟩ := ih (min a b)
    refine ⟨le_trans h1 (min_le_left a b), ?_⟩
    intro y hy
    rcases List.mem_cons.mp hy with hy | hy
    · rw [hy]; exact le_trans h1 (min_le_right a b)
    · exact h2 y hy

theorem le_foldl_max (l : List ℚ) (a : ℚ) :
    a ≤ l.foldl max a ∧ ∀ y ∈ l, y ≤ l.foldl max a := by
  induction l generalizing a with
  | nil => exact ⟨le_refl a, by intro y hy; cases hy⟩
  | cons b bs ih =>
    obtain ⟨h1, h2⟩ := ih (max a b)
    refine ⟨le_trans (le_max_left a b) h1, ?_⟩
    intro y hy
    rcases List.mem_cons.mp hy with hy | hy
    · rw [hy]; exact le_trans (le_max_right a b) h1
    · exact h2 y hy

theorem listMin_le {xs : List ℚ} {y : ℚ} (h : y ∈ xs) : listMin xs ≤ y := by
  cases xs with
  | nil => cases h
  | cons x l =>
    rcases List.mem_cons.mp h with h | h
    · subst h; exact (foldl_min_le l y).1
    · exact (foldl_min_le l x).2 y h

theorem le_listMax {xs : List ℚ} {y : ℚ} (h : y ∈ xs) : y ≤ listMax xs := by
  cases xs with
  | nil => cases h
  | cons x l =>
    rcases List.mem_cons.mp h with h | h
    · subst h; exact (le_foldl_max l y).1
    · exact (le_foldl_max l x).2 y h

theorem leapsBefore_sub (y : Int) :
    (y / 4 - y / 100 + y / 400)
      - ((y - 1) / 4 - (y - 1) / 100 + (y - 1) / 400)
      = if isLeap y then 1 else 0 := by
  by_cases h : isLeap y = true
  · rw [if_pos h]
    simp only [isLeap, Bool.and_eq_true, beq_iff_eq, Bool.or_eq_true, bne_iff_ne] at h
    omega
  · rw [if_neg h]
    simp only [isLeap, Bool.and_eq_true, beq_iff_eq, Bool.or_eq_true, bne_iff_ne] at h
    push_neg at h
    omega

theorem prevDay_valid_count (d : Date) (hv : validDate d) :
    validDate (prevDay d) ∧ dateToDays (prevDay d) = dateToDays d - 1 := by
  obtain ⟨y, m, dd⟩ := d
  obtain ⟨hm1, hm2, hd1, hd2⟩ := hv
  simp only at hm1 hm2 hd1 hd2
  by_cases hdd : 1 < dd
  · have hprev : prevDay ⟨y, m, dd⟩ = ⟨y, m, dd - 1⟩ := by
      simp [prevDay, hdd]
    rw [hprev]
    constructor
    · refine ⟨hm1, hm2, ?_, ?_⟩
      · show 1 ≤ dd - 1
        omega
      · show dd - 1 ≤ daysInMonth y m
        omega
    · simp only [dateToDays]
      omega
  · have hdd1 : dd = 1 := by omega
    subst hdd1
    by_cases hmm : 1 < m
    · have hprev : prevDay ⟨y, m, 1⟩ = ⟨y, m - 1, daysInMonth y (m - 1)⟩ := by
        simp [prevDay, hmm]
      rw [hprev]
      interval_cases m <;>
        by_cases hl : isLeap y = true <;>
          simp [validDate, daysInMonth, daysBeforeMonth, dateToDays, hl] <;>
          omega
    · have hm : m = 1 := by omega
      subst hm
      have hprev : prevDay ⟨y, 1, 1⟩ = ⟨y - 1, 12, 31⟩ := by
        simp [prevDay]
      rw [hprev]
      have hls := leapsBefore_sub (y - 1)
      constructor
      · simp [validDate, daysInMonth]
      · by_cases hl : isLeap (y - 1) = true <;>
          simp only [hl, ite_true, ite_false, Bool.false_eq_true, if_true,
            if_false] at hls <;>
          simp [dateToDays, daysBeforeMonth, hl] <;>
          omega

theorem subDays_valid_count (d : Date) (hv : validDate d) (w : Nat) :
    validDate (subDays d w) ∧ dateToDays (subDays d w) = dateToDays d - w := by
  induction w with
  | zero => exact ⟨hv, by simp [subDays]⟩
  | succ n ih =>
    obtain ⟨ih1, ih2⟩ := ih
    obtain ⟨h1, h2⟩ := prevDay_valid_count _ ih1
    refine ⟨h1, ?_⟩
    show dateToDays (prevDay (subDays d n)) = dateToDays d - (n + 1 : ℕ)
    rw [h2, ih2]
    push_cast
    ring

/-! ## The claims -/

/-- Claim C1, counterexample: with two surviving Landsat candidates, one
acquired 1 day before the target day 100 and one 5 days after it, the
selector returns the candidate 5 days away (its signed difference -5 sorts
first), although the other survivor is strictly closer in absolute days. -/
theorem c1_counterexample :
    select_best_item [itmA, itmB] 100 0 0 = .ok (some (2, "landsat-8", 105)) ∧
    containsPt 0 0 (mkRow itmA) = true ∧
    containsPt 0 0 (mkRow itmB) = true ∧
    ((100 : Int) - (mkRow itmB).dateDays).natAbs = 5 ∧
    ((100 : Int) - (mkRow itmA).dateDays).natAbs = 1 := by
  refine ⟨by decide, by decide, by decide, by decide, by decide⟩

/-- Claim C1 (corrected): when every candidate in the post-filter pool is
acquired on or before the target day, the selector returns a pool member
of smallest absolute time distance, and never a farther one over a closer
one. The restriction is forced: the source sorts by the signed difference
target - acquisition day, so a candidate acquired after the target date
can beat a strictly closer earlier one (see the counterexample). -/
theorem c1_closest_of_no_future (items : List SourceItem) (target : Int)
    (lat long : ℚ) (q : Row) (qs : List Row)
    (hq : pool items lat long = q :: qs)
    (hpast : ∀ r ∈ q :: qs, r.dateDays ≤ target) :
    ∃ r ∈ q :: qs,
      select_best_item items target lat long
          = .ok (some (r.obj, r.platform, r.dateDays)) ∧
      ∀ s ∈ q :: qs,
        (target - r.dateDays).natAbs ≤ (target - s.dateDays).natAbs := by
  cases items with
  | nil =>
    rw [show pool [] lat long = [] from rfl] at hq
    cases hq
  | cons i is =>
    have hmem : pickMinBy (fun r => target - r.dateDays) q qs ∈ q :: qs := by
      rcases pickMinBy_mem (fun r => target - r.dateDays) q qs with h | h
      · rw [h]; exact List.mem_cons_self q qs
      · exact List.mem_cons_of_mem q h
    refine ⟨pickMinBy (fun r => target - r.dateDays) q qs, hmem, ?_, ?_⟩
    · show Except.ok (selectFromPool target (pool (i :: is) lat long)) = _
      rw [hq]
      rfl
    · intro s hs
      have h1 := pickMinBy_le (fun r => target - r.dateDays) q qs s hs
      have h2 := hpast _ hmem
      have h3 := hpast s hs
      simp only at h1
      omega

/-- Claim C1, witness: the corrected theorem applied to a single
all-in-the-past pool. -/
theorem c1_closest_witness :
    pool [itmA] 0 0 = [mkRow itmA] ∧
    (∀ r ∈ [mkRow itmA], r.dateDays ≤ (100 : Int)) ∧
    ∃ r ∈ [mkRow itmA],
      select_best_item [itmA] 100 0 0 = .ok (some (r.obj, r.platform, r.dateDays)) ∧
      ∀ s ∈ [mkRow itmA],
        ((100 : Int) - r.dateDays).natAbs ≤ ((100 : Int) - s.dateDays).natAbs :=
  ⟨by decide, by decide,
    c1_closest_of_no_future [itmA] 100 0 0 (mkRow itmA) [] (by decide) (by decide)⟩

/-- Claim C2 (code bug): evaluating the batch driver at a run whose second
location gets zero catalog items shows the loop writing an output file for
that location anyway, reusing the item selected for the first location
(stale binding); and a run whose FIRST location gets zero items raises a
NameError, because nothing was ever bound. Both contradict the claimed
"no output, no error" skip. -/
theorem c2_skip_falls_through :
    envC2.searchRes 1 = some [] ∧
    driverLoop envC2 .unbound [floc0, floc1] = ([⟨0, 10⟩, ⟨1, 10⟩], none) ∧
    envC2b.searchRes 0 = some [] ∧
    driverLoop envC2b .unbound [floc0] = ([], some .nameErr) := by
  refine ⟨by decide, by decide, by decide, by decide⟩

/-- Claim C3, counterexample: on the empty candidate list the selector
does raise (the DataFrame built from an empty list has no min_lat column,
so the containment-filter line fails), rather than reporting no match. -/
theorem c3_empty_list_raises :
    select_best_item [] 0 0 0 = .error attrMsg := by
  rfl

/-- Claim C3 (corrected): for every NON-EMPTY candidate list in which no
candidate strictly contains the point, the selector reports no match (the
NaN triple, modelled as .ok none) and does not raise; the empty list had
to be excluded, as the counterexample shows the source raising there. -/
theorem c3_no_match_no_raise (items : List SourceItem) (target : Int)
    (lat long : ℚ) (i : SourceItem) (is : List SourceItem)
    (hitems : items = i :: is)
    (hnone : ∀ j ∈ items, containsPt lat long (mkRow j) = false) :
    select_best_item items target lat long = .ok none := by
  subst hitems
  have hsurv : survivors (i :: is) lat long = [] := by
    simp only [survivors]
    rw [List.filter_eq_nil_iff]
    intro r hr
    rcases List.mem_map.mp hr with ⟨j, hj, rfl⟩
    simp [hnone j hj]
  show Except.ok (selectFromPool target (pool (i :: is) lat long)) = _
  rw [pool, hsurv]
  rfl

/-- Claim C3, witness: a singleton list whose only candidate does not
contain the point yields .ok none. -/
theorem c3_no_match_witness :
    ([itmOut] : List SourceItem) = itmOut :: [] ∧
    (∀ j ∈ [itmOut], containsPt (0 : ℚ) (0 : ℚ) (mkRow j) = false) ∧
    select_best_item [itmOut] 0 0 0 = .ok none :=
  ⟨rfl, by decide, c3_no_match_no_raise [itmOut] 0 0 0 itmOut [] rfl (by decide)⟩

set_option maxRecDepth 8000 in
/-- Claim C5, counterexample: at the scripts own inputs (target
2022-08-31, 30-day lookback) the returned string is
"2022-08-01T/2022-08-31T", whose two components each carry a trailing
literal T from the format string "%Y-%m-%dT" and so are not bare ISO-8601
date strings; the spec-side rendering differs. -/
theorem c5_counterexample :
    get_date_range ⟨2022, 8, 31⟩ 30 = "2022-08-01T/2022-08-31T" ∧
    specDateRange ⟨2022, 8, 31⟩ 30 = "2022-08-01/2022-08-31" ∧
    (get_date_range ⟨2022, 8, 31⟩ 30 == specDateRange ⟨2022, 8, 31⟩ 30) = false := by
  refine ⟨by decide, by decide, by decide⟩

/-- Claim C5 (corrected): for every valid target date D and lookback
W >= 0, the calculator returns the interval [D - W days, D]: the start is
a valid calendar date whose absolute day number is exactly W less than
that of D (month and year boundaries handled correctly), and the two ends
are rendered as the ISO date plus a trailing literal T, joined by a
slash -- not as bare ISO-8601 date strings. -/
theorem c5_range_correct (d : Date) (w : Nat) (hv : validDate d) :
    validDate (subDays d w) ∧
    dateToDays (subDays d w) = dateToDays d - w ∧
    get_date_range d w
      = (isoDate (subDays d w) ++ "T") ++ "/" ++ (isoDate d ++ "T") := by
  obtain ⟨h1, h2⟩ := subDays_valid_count d hv w
  exact ⟨h1, h2, rfl⟩

set_option maxRecDepth 8000 in
/-- Claim C5, witness: the corrected theorem at a year-boundary instance,
2022-01-05 minus 10 days = 2021-12-26. -/
theorem c5_range_witness :
    validDate ⟨2022, 1, 5⟩ ∧
    (validDate (subDays ⟨2022, 1, 5⟩ 10) ∧
      dateToDays (subDays ⟨2022, 1, 5⟩ 10) = dateToDays ⟨2022, 1, 5⟩ - (10 : Nat) ∧
      get_date_range ⟨2022, 1, 5⟩ 10
        = (isoDate (subDays ⟨2022, 1, 5⟩ 10) ++ "T") ++ "/" ++ (isoDate ⟨2022, 1, 5⟩ ++ "T")) :=
  ⟨by decide, c5_range_correct ⟨2022, 1, 5⟩ 10 (by decide)⟩

/-- Claim C6 (confirmed): the containment test uses strict inequalities on
all four bounds, so a point lying exactly on any edge of a candidate
bounding box makes the test false and the candidate is discarded -- a list
holding only that candidate selects nothing. -/
theorem c6_edge_excluded (i : SourceItem) (target : Int) (lat long : ℚ)
    (h : lat = i.minLat ∨ lat = i.maxLat ∨ long = i.minLong ∨ long = i.maxLong) :
    containsPt lat long (mkRow i) = false ∧
    select_best_item [i] target lat long = .ok none := by
  have hc : containsPt lat long (mkRow i) = false := by
    simp only [containsPt, mkRow]
    rcases h with h | h | h | h <;> rw [h] <;> simp [lt_irrefl]
  refine ⟨hc, ?_⟩
  have hsurv : survivors [i] lat long = [] := by
    simp [survivors, hc]
  show Except.ok (selectFromPool target (pool [i] lat long)) = _
  rw [pool, hsurv]
  rfl

/-- Claim C6, witness: the origin lies on the min_lat edge of itmEdge and
is discarded. -/
theorem c6_edge_witness :
    ((0 : ℚ) = itmEdge.minLat ∨ (0 : ℚ) = itmEdge.maxLat ∨
      (0 : ℚ) = itmEdge.minLong ∨ (0 : ℚ) = itmEdge.maxLong) ∧
    (containsPt 0 0 (mkRow itmEdge) = false ∧
      select_best_item [itmEdge] 5 0 0 = .ok none) :=
  ⟨Or.inl rfl, c6_edge_excluded itmEdge 5 0 0 (Or.inl rfl)⟩

/-- Claim C7 (confirmed): whenever some survivor of the containment filter
has a sentinel platform, the platform of the returned scene is a sentinel
platform: the non-Sentinel survivors are all discarded before the
closest-in-time choice. -/
theorem c7_sentinel_preferred (items : List SourceItem) (target : Int)
    (lat long : ℚ) (o : Nat) (p : String) (dd : Int)
    (hs : (survivors items lat long).any (fun r => isSent r.platform) = true)
    (hres : select_best_item items target lat long = .ok (some (o, p, dd))) :
    isSent p = true := by
  cases items with
  | nil =>
    rw [show survivors ([] : List SourceItem) lat long = [] from rfl] at hs
    cases hs
  | cons i is =>
    have hpool : pool (i :: is) lat long
        = (survivors (i :: is) lat long).filter (fun r => isSent r.platform) := by
      rw [pool, sentinelFilter, if_pos hs]
    rw [show select_best_item (i :: is) target lat long
        = .ok (selectFromPool target (pool (i :: is) lat long)) from rfl,
      hpool] at hres
    cases hq : (survivors (i :: is) lat long).filter (fun r => isSent r.platform) with
    | nil =>
      rw [hq] at hres
      simp [selectFromPool] at hres
    | cons q qs =>
      rw [hq] at hres
      simp only [selectFromPool, Except.ok.injEq, Option.some.injEq,
        Prod.mk.injEq] at hres
      obtain ⟨-, hp, -⟩ := hres
      have hmem : pickMinBy (fun r => target - r.dateDays) q qs ∈ q :: qs := by
        rcases pickMinBy_mem (fun r => target - r.dateDays) q qs with h | h
        · rw [h]; exact List.mem_cons_self q qs
        · exact List.mem_cons_of_mem q h
      rw [← hq] at hmem
      have hsent := (List.mem_filter.mp hmem).2
      rw [← hp]
      exact hsent

/-- Claim C7, witness: with one Sentinel and one Landsat survivor the
returned platform is the Sentinel one, though the Landsat item is closer
in time. -/
theorem c7_sentinel_witness :
    (survivors [itmS, itmL] 0 0).any (fun r => isSent r.platform) = true ∧
    select_best_item [itmS, itmL] 100 0 0 = .ok (some (3, "Sentinel-2A", 95)) ∧
    isSent "Sentinel-2A" = true :=
  ⟨by decide, by decide,
    c7_sentinel_preferred [itmS, itmL] 100 0 0 3 "Sentinel-2A" 95
      (by decide) (by decide)⟩

/-- Claim C8 (confirmed): whenever the fetched pixel array has a
non-degenerate value range (its minimum strictly below its maximum), every
value of the min-max normalized array of the Landsat cropper lies in
[0, 255]. -/
theorem c8_normalize_bounds (xs : List ℚ) (y : ℚ)
    (h : listMin xs < listMax xs) (hy : y ∈ cv2_normalize_minmax xs) :
    0 ≤ y ∧ y ≤ 255 := by
  simp only [cv2_normalize_minmax] at hy
  rcases List.mem_map.mp hy with ⟨v, hv, rfl⟩
  have hmn : listMin xs ≤ v := listMin_le hv
  have hmx : v ≤ listMax xs := le_listMax hv
  have hpos : 0 < listMax xs - listMin xs := by linarith
  constructor
  · apply div_nonneg
    · have h0 : (0 : ℚ) ≤ v - listMin xs := by linarith
      have h255 : (0 : ℚ) ≤ 255 := by norm_num
      exact mul_nonneg h0 h255
    · linarith
  · rw [div_le_iff₀ hpos]
    linarith

/-- Claim C8, witness: the normalization of the array [0, 1] sends 255 (the
image of the maximum) into [0, 255]. -/
theorem c8_normalize_witness :
    listMin [(0 : ℚ), 1] < listMax [(0 : ℚ), 1] ∧
    (255 : ℚ) ∈ cv2_normalize_minmax [(0 : ℚ), 1] ∧
    (0 ≤ (255 : ℚ) ∧ (255 : ℚ) ≤ 255) :=
  ⟨by norm_num [listMin, listMax, List.foldl, min_def, max_def],
   by norm_num [cv2_normalize_minmax, listMin, listMax, List.foldl, min_def, max_def],
   c8_normalize_bounds [(0 : ℚ), 1] 255
     (by norm_num [listMin, listMax, List.foldl, min_def, max_def])
     (by norm_num [cv2_normalize_minmax, listMin, listMax, List.foldl, min_def, max_def])⟩

/-- Claim C9, counterexample: with the crop of the first location failing,
the run ends at once with that error and writes nothing, although the
second location on its own would have produced its output file -- the
error is not isolated to the failing location. -/
theorem c9_counterexample :
    driverLoop envC9 .unbound [floc0, floc1] = ([], some .cropErr) ∧
    driverLoop envC9 .unbound [floc1] = ([⟨1, 21⟩], none) := by
  refine ⟨by decide, by decide⟩

/-- Claim C9 (corrected): the batch driver has no per-location error
isolation: whenever processing one location raises, the whole run stops
with that error, no output is recorded for it or for any later location,
and the remaining locations are never processed. -/
theorem c9_error_aborts_run (env : DriverEnv) (b : Binding) (loc : Location)
    (rest : List Location) (e : RunErr)
    (hfail : processLoc env b loc = .error e) :
    driverLoop env b (loc :: rest) = ([], some e) := by
  simp [driverLoop, hfail]

/-- Claim C9, witness: the amended theorem at the concrete failing run of
the counterexample. -/
theorem c9_aborts_witness :
    processLoc envC9 Binding.unbound floc0 = .error RunErr.cropErr ∧
    driverLoop envC9 Binding.unbound [floc0, floc1] = ([], some RunErr.cropErr) :=
  ⟨by decide,
    c9_error_aborts_run envC9 Binding.unbound floc0 [floc1] RunErr.cropErr (by decide)⟩

/-- Claim C10 (confirmed): the selector compares acquisition times at
calendar-day granularity: the row datetime is the strftime("%Y-%m-%d")
truncation, so two candidates acquired at different seconds of the same
calendar day have the same row date and exactly equal time difference from
any target day. -/
theorem c10_same_day_equal_diff (i1 i2 : SourceItem) (target : Int)
    (_hne : (i1.epochSecs == i2.epochSecs) = false)
    (hday : i1.epochSecs.fdiv 86400 = i2.epochSecs.fdiv 86400) :
    (mkRow i1).dateDays = (mkRow i2).dateDays ∧
    target - (mkRow i1).dateDays = target - (mkRow i2).dateDays := by
  refine ⟨hday, ?_⟩
  show target - i1.epochSecs.fdiv 86400 = target - i2.epochSecs.fdiv 86400
  rw [hday]

/-- Claim C10, witness: two items one hour apart within day 738390 get
equal time differences from the sample day. -/
theorem c10_same_day_witness :
    (itmT1.epochSecs == itmT2.epochSecs) = false ∧
    itmT1.epochSecs.fdiv 86400 = itmT2.epochSecs.fdiv 86400 ∧
    ((mkRow itmT1).dateDays = (mkRow itmT2).dateDays ∧
      targetDay - (mkRow itmT1).dateDays = targetDay - (mkRow itmT2).dateDays) :=
  ⟨by decide, by decide,
    c10_same_day_equal_diff itmT1 itmT2 targetDay (by decide) (by decide)⟩

end Fishpond
